import Mathlib

/-!
Verification development for the Xiaohongshu note-processing workflow
(`main.py`, `utils.py`, `video_generator.py`, `config.py`).

The Python source is shallowly embedded: pure logic becomes Lean
functions, stateful objects become explicit state passing, wall-clock
times and delays are rationals, exceptions become `Option`/`Except`
values, and external collaborators (HTTP endpoints, `json.loads`,
`random.uniform`, `time.time`) are parameters of the embedded
functions.
-/

namespace Workflow

/-! ### RetryHandler (`utils.py`, lines 199-252)

`RetryHandler.execute_with_retry` runs `func` in a loop
`for attempt in range(max_retries + 1)`.  A success returns at once;
an exception is remembered, and if `attempt < max_retries` the handler
sleeps `delay + jitter` where `delay = base_delay * backoff_factor ** attempt`
and `jitter = random.uniform(0.1, 0.3) * delay`, then continues.  After
the loop the last exception is re-raised unchanged.

The operation is embedded as `op : Nat → Except E A`, giving the
outcome of each invocation (invocation `i` is the `(i+1)`-st call);
the jitter draws of `random.uniform(0.1, 0.3)` are embedded as a
stream `jit : Nat → ℚ` (`jit a` is the draw made after the failure of
attempt index `a`).  The trace records the returned value or re-raised
exception, the number of invocations made, and the list of slept
delays in order. -/

structure RetryHandler where
  max_retries : Nat
  base_delay : ℚ
  backoff_factor : ℚ

/-- Outcome of one `execute_with_retry` call: the result (`ok` value
returned, or `error` re-raised), the total number of times `func` was
invoked, and the delays slept between attempts, in order. -/
structure RetryTrace (E A : Type) where
  result : Except E A
  invocations : Nat
  delays : List ℚ

/-- The retry loop from attempt index `attempt`, with `remaining` more
attempts allowed after this one (`remaining = max_retries - attempt`
at every call site). -/
def retryLoop (h : RetryHandler) (op : Nat → Except E A) (jit : Nat → ℚ) :
    Nat → Nat → RetryTrace E A
  | attempt, 0 =>
    match op attempt with
    | .ok a => ⟨.ok a, attempt + 1, []⟩
    | .error e => ⟨.error e, attempt + 1, []⟩
  | attempt, remaining + 1 =>
    match op attempt with
    | .ok a => ⟨.ok a, attempt + 1, []⟩
    | .error _ =>
      let delay := h.base_delay * h.backoff_factor ^ attempt
      let jitter := jit attempt * delay
      let total_delay := delay + jitter
      let t := retryLoop h op jit (attempt + 1) remaining
      ⟨t.result, t.invocations, total_delay :: t.delays⟩

/-- `RetryHandler.execute_with_retry`: the loop starts at attempt 0
with `max_retries` further attempts allowed. -/
def execute_with_retry (h : RetryHandler) (op : Nat → Except E A) (jit : Nat → ℚ) :
    RetryTrace E A :=
  retryLoop h op jit 0 h.max_retries

/-- If the operation succeeds at invocation `attempt + k` after failing
at every earlier invocation from `attempt` on, the loop returns that
value after exactly `attempt + k + 1` invocations. -/
theorem retryLoop_ok (h : RetryHandler) (op : Nat → Except E A) (jit : Nat → ℚ)
    (attempt k remaining : Nat) (v : A)
    (hk : k ≤ remaining)
    (hfail : ∀ i, attempt ≤ i → i < attempt + k → (op i).isOk = false)
    (hok : op (attempt + k) = .ok v) :
    (retryLoop h op jit attempt remaining).result = .ok v ∧
      (retryLoop h op jit attempt remaining).invocations = attempt + k + 1 := by
  induction k generalizing attempt remaining with
  | zero =>
    cases remaining with
    | zero =>
      simp only [retryLoop]
      rw [show attempt + 0 = attempt from rfl] at hok
      rw [hok]
      exact ⟨rfl, rfl⟩
    | succ r =>
      simp only [retryLoop]
      rw [show attempt + 0 = attempt from rfl] at hok
      rw [hok]
      exact ⟨rfl, rfl⟩
  | succ k ih =>
    cases remaining with
    | zero => omega
    | succ r =>
      have hfail0 : (op attempt).isOk = false :=
        hfail attempt le_rfl (by omega)
      simp only [retryLoop]
      cases hop : op attempt with
      | ok a => rw [hop] at hfail0; simp [Except.isOk, Except.toBool] at hfail0
      | error e =>
        have := ih (attempt + 1) r (by omega)
          (fun i h1 h2 => hfail i (by omega) (by omega))
          (by rw [show attempt + 1 + k = attempt + (k + 1) from by omega]; exact hok)
        simpa [show attempt + 1 + k = attempt + (k + 1) from by omega] using this

/-- If the operation fails at every invocation, the loop makes all its
allowed invocations and re-raises exactly the failure of the last
invocation (invocation index `attempt + remaining`), unwrapped. -/
theorem retryLoop_allFail (h : RetryHandler) (op : Nat → Except E A) (jit : Nat → ℚ)
    (err : Nat → E) (attempt remaining : Nat)
    (hfail : ∀ i, op i = .error (err i)) :
    (retryLoop h op jit attempt remaining).result = .error (err (attempt + remaining)) ∧
      (retryLoop h op jit attempt remaining).invocations = attempt + remaining + 1 := by
  induction remaining generalizing attempt with
  | zero =>
    simp only [retryLoop]
    rw [hfail attempt]
    exact ⟨rfl, rfl⟩
  | succ r ih =>
    simp only [retryLoop]
    rw [hfail attempt]
    have := ih (attempt + 1)
    simp only [show attempt + 1 + r = attempt + (r + 1) from by omega] at this
    exact this

/-- C3.  (i) If the operation fails on exactly its first `m` invocations
with `m ≤ max_retries` and succeeds on invocation `m`, then
`execute_with_retry` returns the success value and the operation was
invoked exactly `m + 1` times.  (ii) If the operation fails on every
invocation, it is invoked exactly `max_retries + 1` times and
`execute_with_retry` re-raises exactly the failure of the last
invocation, unwrapped and unswallowed. -/
theorem execute_with_retry_spec :
    (∀ {E A : Type} (h : RetryHandler) (op : Nat → Except E A) (jit : Nat → ℚ)
        (m : Nat) (v : A),
      m ≤ h.max_retries →
      (∀ i, i < m → (op i).isOk = false) →
      op m = .ok v →
      (execute_with_retry h op jit).result = .ok v ∧
        (execute_with_retry h op jit).invocations = m + 1) ∧
    (∀ {E A : Type} (h : RetryHandler) (op : Nat → Except E A) (jit : Nat → ℚ)
        (err : Nat → E),
      (∀ i, op i = .error (err i)) →
      (execute_with_retry h op jit).result = .error (err h.max_retries) ∧
        (execute_with_retry h op jit).invocations = h.max_retries + 1) := by
  constructor
  · intro E A h op jit m v hm hfail hok
    have := retryLoop_ok h op jit 0 m h.max_retries v hm
      (fun i _ h2 => hfail i (by omega)) (by simpa using hok)
    simpa [execute_with_retry] using this
  · intro E A h op jit err hfail
    have := retryLoop_allFail h op jit err 0 h.max_retries hfail
    simpa [execute_with_retry] using this

/-- Witness for C3 at concrete inputs: an operation over `E = A = Nat`
that fails twice then succeeds, under `max_retries = 3`, returns the
success value in 3 invocations; an operation that always fails is
invoked 4 times and the last failure (error 3) is re-raised. -/
theorem execute_with_retry_spec_witness :
    ((execute_with_retry ⟨3, 1, 2⟩
        (fun i => if i < 2 then Except.error i else Except.ok 99) (fun _ => (1:ℚ)/5)).result
        = Except.ok 99 ∧
      (execute_with_retry ⟨3, 1, 2⟩
        (fun i => if i < 2 then Except.error i else Except.ok 99) (fun _ => (1:ℚ)/5)).invocations
        = 3) ∧
    ((execute_with_retry ⟨3, 1, 2⟩
        (fun i => (Except.error i : Except Nat Nat)) (fun _ => (1:ℚ)/5)).result
        = Except.error 3 ∧
      (execute_with_retry ⟨3, 1, 2⟩
        (fun i => (Except.error i : Except Nat Nat)) (fun _ => (1:ℚ)/5)).invocations
        = 4) :=
  ⟨execute_with_retry_spec.1 ⟨3, 1, 2⟩ _ _ 2 99 (by decide)
      (by intro i hi; interval_cases i <;> decide) rfl,
    execute_with_retry_spec.2 ⟨3, 1, 2⟩ _ _ (fun i => i) (fun _ => rfl)⟩

/-- Every delay in the trace, by position: the delay at position `p`
of the delays list (slept after the failure of attempt index
`attempt + p`) equals `base_delay * backoff_factor ^ (attempt + p)`
plus `jit (attempt + p)` times that quantity. -/
theorem retryLoop_delays (h : RetryHandler) (op : Nat → Except E A) (jit : Nat → ℚ)
    (attempt remaining : Nat) (p : Nat) (d : ℚ)
    (hd : (retryLoop h op jit attempt remaining).delays.get? p = some d) :
    d = h.base_delay * h.backoff_factor ^ (attempt + p)
        + jit (attempt + p) * (h.base_delay * h.backoff_factor ^ (attempt + p)) := by
  induction remaining generalizing attempt p with
  | zero =>
    simp only [retryLoop] at hd
    cases hop : op attempt <;> rw [hop] at hd <;> simp at hd
  | succ r ih =>
    simp only [retryLoop] at hd
    cases hop : op attempt with
    | ok a => rw [hop] at hd; simp at hd
    | error e =>
      rw [hop] at hd
      simp only at hd
      cases p with
      | zero =>
        simp only [List.get?] at hd
        have : d = h.base_delay * h.backoff_factor ^ attempt
            + jit attempt * (h.base_delay * h.backoff_factor ^ attempt) := by
          injection hd with hd'
          rw [← hd']
        simpa using this
      | succ q =>
        simp only [List.get?] at hd
        have := ih (attempt + 1) q hd
        rw [this]
        rw [show attempt + 1 + q = attempt + (q + 1) from by omega]

/-- C4.  If every jitter draw lies in `[0.1, 0.3]`, then for every
retry attempt `k` (1-indexed, `k > 1`) actually made, the delay slept
immediately before attempt `k` — position `k - 2` of the delays list —
equals `base_delay * backoff_factor ^ (k-2)` plus the jitter draw times
that base amount, and (for nonnegative `base_delay`, `backoff_factor`)
lies in `[1.1, 1.3] * (base_delay * backoff_factor ^ (k-2))`. -/
theorem execute_with_retry_delay_spec {E A : Type}
    (h : RetryHandler) (op : Nat → Except E A) (jit : Nat → ℚ)
    (hjit : ∀ i, (1:ℚ)/10 ≤ jit i ∧ jit i ≤ (3:ℚ)/10)
    (hbase : 0 ≤ h.base_delay) (hfac : 0 ≤ h.backoff_factor)
    (k : Nat) (d : ℚ)
    (hd : (execute_with_retry h op jit).delays.get? (k - 2) = some d) :
    d = h.base_delay * h.backoff_factor ^ (k - 2)
        + jit (k - 2) * (h.base_delay * h.backoff_factor ^ (k - 2)) ∧
      (11:ℚ)/10 * (h.base_delay * h.backoff_factor ^ (k - 2)) ≤ d ∧
      d ≤ (13:ℚ)/10 * (h.base_delay * h.backoff_factor ^ (k - 2)) := by
  have hform := retryLoop_delays h op jit 0 h.max_retries (k - 2) d hd
  simp only [Nat.zero_add] at hform
  refine ⟨hform, ?_, ?_⟩
  · have hpos : 0 ≤ h.base_delay * h.backoff_factor ^ (k - 2) :=
      mul_nonneg hbase (pow_nonneg hfac _)
    have hj := (hjit (k - 2)).1
    nlinarith [hpos, hj]
  · have hpos : 0 ≤ h.base_delay * h.backoff_factor ^ (k - 2) :=
      mul_nonneg hbase (pow_nonneg hfac _)
    have hj := (hjit (k - 2)).2
    nlinarith [hpos, hj]

/-- Witness for C4 at a concrete input: handler with `max_retries = 2`,
`base_delay = 1`, `backoff_factor = 2`, an always-failing operation, a
constant jitter draw of `1/5`; the delay before 1-indexed attempt 3
(position 1) is `2 + 2/5 = 12/5`, and the bounds hold there. -/
theorem execute_with_retry_delay_spec_witness :
    (12:ℚ)/5 = (1:ℚ) * (2:ℚ) ^ (3 - 2 : Nat)
        + (1:ℚ)/5 * ((1:ℚ) * (2:ℚ) ^ (3 - 2 : Nat)) ∧
      (11:ℚ)/10 * ((1:ℚ) * (2:ℚ) ^ (3 - 2 : Nat)) ≤ (12:ℚ)/5 ∧
      (12:ℚ)/5 ≤ (13:ℚ)/10 * ((1:ℚ) * (2:ℚ) ^ (3 - 2 : Nat)) :=
  execute_with_retry_delay_spec ⟨2, 1, 2⟩
    (fun i => (Except.error i : Except Nat Nat)) (fun _ => (1:ℚ)/5)
    (fun _ => by constructor <;> norm_num) (by norm_num) (by norm_num)
    3 ((12:ℚ)/5) (by norm_num [execute_with_retry, retryLoop])

/-! ### RateLimiter (`utils.py`, lines 164-197)

`RateLimiter.wait_if_needed` reads `now = time.time()`, drops the
recorded timestamps `t` with `now - t >= time_window`, and if the
survivors number at least `max_requests` computes
`sleep_time = time_window - (now - self.requests[0]) + 1`; when that
is positive it sleeps, re-reads the clock, and re-drops expired
timestamps.  Finally the (possibly advanced) `now` is appended.

The embedding passes the clock explicitly: the call receives the
current time `now`, sleeping for `s` seconds advances the clock to
`now + s` (the single logical caller of the claim), and the call
returns the admission time together with the new limiter state.
`self.requests[0]` on an empty list raises `IndexError` in Python —
reachable only with `max_requests = 0` — and is embedded as `none`. -/

structure RateLimiter where
  max_requests : Nat
  time_window : ℚ
  requests : List ℚ

/-- `RateLimiter.wait_if_needed`, as a function of the current time.
Returns `some (admission time, new state)`, or `none` for the
`IndexError` raised by `self.requests[0]` on an empty list. -/
def wait_if_needed (rl : RateLimiter) (now : ℚ) : Option (ℚ × RateLimiter) :=
  let reqs := rl.requests.filter (fun t => now - t < rl.time_window)
  if rl.max_requests ≤ reqs.length then
    match reqs with
    | [] => none
    | r0 :: _ =>
      let sleep_time := rl.time_window - (now - r0) + 1
      if 0 < sleep_time then
        let now2 := now + sleep_time
        let reqs2 := reqs.filter (fun t => now2 - t < rl.time_window)
        some (now2, ⟨rl.max_requests, rl.time_window, reqs2 ++ [now2]⟩)
      else
        some (now, ⟨rl.max_requests, rl.time_window, reqs ++ [now]⟩)
  else
    some (now, ⟨rl.max_requests, rl.time_window, reqs ++ [now]⟩)

/-- A sequence of `wait_if_needed` calls by one logical caller, at the
given clock readings, threading the limiter state. -/
def runCalls : RateLimiter → List ℚ → Option RateLimiter
  | rl, [] => some rl
  | rl, t :: ts =>
    match wait_if_needed rl t with
    | none => none
    | some (_, rl') => runCalls rl' ts

/-- One call preserves the bound: if the state holds at most
`max_requests` timestamps and `1 ≤ max_requests`, the call succeeds
and the new state again holds at most `max_requests` timestamps. -/
theorem wait_if_needed_bound (rl : RateLimiter) (now : ℚ)
    (hmax : 1 ≤ rl.max_requests) (hlen : rl.requests.length ≤ rl.max_requests) :
    ∃ t rl', wait_if_needed rl now = some (t, rl') ∧
      rl'.requests.length ≤ rl.max_requests ∧
      rl'.max_requests = rl.max_requests ∧ rl'.time_window = rl.time_window := by
  unfold wait_if_needed
  by_cases hcase :
      rl.max_requests ≤ (rl.requests.filter (fun t => now - t < rl.time_window)).length
  · simp only [hcase, if_true]
    match hreqs : rl.requests.filter (fun t => now - t < rl.time_window) with
    | [] =>
      have hzero : (rl.requests.filter (fun t => now - t < rl.time_window)).length = 0 := by
        rw [hreqs]
        rfl
      omega
    | r0 :: rest =>
      have hr0 : r0 ∈ rl.requests.filter (fun t => now - t < rl.time_window) := by
        rw [hreqs]
        exact List.mem_cons_self _ _
      have hr0w : now - r0 < rl.time_window := by
        have := List.of_mem_filter hr0
        simpa using this
      have hsleep : 0 < rl.time_window - (now - r0) + 1 := by linarith
      simp only [hsleep, if_true]
      refine ⟨_, _, rfl, ?_, rfl, rfl⟩
      -- after the sleep the head `r0` has expired, so the re-filter
      -- drops it: the surviving list is strictly shorter.
      have hr0drop : ¬ (now + (rl.time_window - (now - r0) + 1) - r0 < rl.time_window) := by
        intro hlt
        linarith
      have hdrop : (r0 :: rest).filter
          (fun t => now + (rl.time_window - (now - r0) + 1) - t < rl.time_window)
          = rest.filter
            (fun t => now + (rl.time_window - (now - r0) + 1) - t < rl.time_window) := by
        simp [List.filter, hr0drop]
      simp only [List.length_append, List.length_cons, List.length_nil, hdrop]
      have h1 : (rest.filter
          (fun t => now + (rl.time_window - (now - r0) + 1) - t < rl.time_window)).length
          ≤ rest.length := List.length_filter_le _ _
      have h2 : (r0 :: rest).length ≤ rl.requests.length := by
        rw [← hreqs]
        exact List.length_filter_le _ _
      simp only [List.length_cons] at h2
      omega
  · simp only [hcase, if_false]
    refine ⟨_, _, rfl, ?_, rfl, rfl⟩
    simp only [List.length_append, List.length_cons, List.length_nil]
    have := List.length_filter_le (fun t => decide (now - t < rl.time_window)) rl.requests
    omega

/-- Trace invariant: from any state within the bound, a sequence of
calls succeeds and ends within the bound. -/
theorem runCalls_bound (ts : List ℚ) (rl : RateLimiter)
    (hmax : 1 ≤ rl.max_requests) (hlen : rl.requests.length ≤ rl.max_requests) :
    ∃ rl', runCalls rl ts = some rl' ∧
      rl'.requests.length ≤ rl.max_requests ∧
      rl'.max_requests = rl.max_requests ∧ rl'.time_window = rl.time_window := by
  induction ts generalizing rl with
  | nil => exact ⟨rl, rfl, hlen, rfl, rfl⟩
  | cons t ts ih =>
    obtain ⟨a, rl1, hcall, hlen1, hN1, hW1⟩ := wait_if_needed_bound rl t hmax hlen
    obtain ⟨rl', hrun, hlen', hN', hW'⟩ := ih rl1 (hN1 ▸ hmax) (hN1 ▸ hlen1)
    refine ⟨rl', ?_, hN1 ▸ hlen', hN1 ▸ hN', hW1 ▸ hW'⟩
    simp only [runCalls, hcall]
    exact hrun

/-- C5.  For a single logical caller of `RateLimiter.wait_if_needed`
with `1 ≤ max_requests = N` and window `W`:
(i) starting from a fresh limiter, every sequence of calls succeeds
and leaves at most `N` recorded timestamps — so at the instant any
request is admitted the count of timestamps younger than `W` (at any
clock reading) is at most `N`;
(ii) a call never rejects: it returns an admission, the admission time
is delayed (`now ≤ t`), never refused, and the admission's timestamp
is appended to the record;
(iii) when the window already holds fewer than `N` unexpired
timestamps the request is admitted immediately, with no delay, at
time `now`. -/
theorem wait_if_needed_spec :
    (∀ (N : Nat) (W : ℚ) (ts : List ℚ), 1 ≤ N →
      ∃ rl', runCalls ⟨N, W, []⟩ ts = some rl' ∧
        rl'.requests.length ≤ N ∧
        ∀ now, (rl'.requests.filter (fun t => now - t < W)).length ≤ N) ∧
    (∀ (rl : RateLimiter) (now : ℚ),
      1 ≤ rl.max_requests → rl.requests.length ≤ rl.max_requests →
      ∃ t rl', wait_if_needed rl now = some (t, rl') ∧ now ≤ t ∧
        ∃ pre, rl'.requests = pre ++ [t]) ∧
    (∀ (rl : RateLimiter) (now : ℚ),
      (rl.requests.filter (fun t => now - t < rl.time_window)).length < rl.max_requests →
      wait_if_needed rl now =
        some (now, ⟨rl.max_requests, rl.time_window,
          rl.requests.filter (fun t => now - t < rl.time_window) ++ [now]⟩)) := by
  refine ⟨?_, ?_, ?_⟩
  · intro N W ts hN
    obtain ⟨rl', hrun, hlen', hN', _⟩ := runCalls_bound ts ⟨N, W, []⟩ hN (by simp)
    refine ⟨rl', hrun, by simpa [hN'] using hlen', ?_⟩
    intro now
    calc (rl'.requests.filter (fun t => now - t < W)).length
        ≤ rl'.requests.length := List.length_filter_le _ _
      _ ≤ N := by simpa [hN'] using hlen'
  · intro rl now hmax hlen
    unfold wait_if_needed
    by_cases hcase :
        rl.max_requests ≤ (rl.requests.filter (fun t => now - t < rl.time_window)).length
    · simp only [hcase, if_true]
      match hreqs : rl.requests.filter (fun t => now - t < rl.time_window) with
      | [] =>
        have hzero : (rl.requests.filter (fun t => now - t < rl.time_window)).length = 0 := by
          rw [hreqs]
          rfl
        omega
      | r0 :: rest =>
        have hr0 : r0 ∈ rl.requests.filter (fun t => now - t < rl.time_window) := by
          rw [hreqs]
          exact List.mem_cons_self _ _
        have hr0w : now - r0 < rl.time_window := by
          have := List.of_mem_filter hr0
          simpa using this
        have hsleep : 0 < rl.time_window - (now - r0) + 1 := by linarith
        simp only [hsleep, if_true]
        exact ⟨_, _, rfl, by linarith, _, rfl⟩
    · simp only [hcase, if_false]
      exact ⟨_, _, rfl, le_rfl, _, rfl⟩
  · intro rl now hcase
    unfold wait_if_needed
    simp only [Nat.not_le.mpr hcase, if_false]

/-- Witness for C5 at concrete inputs: `N = 2`, `W = 10`, the burst
call sequence at clock readings `0, 1, 2`; a fresh limiter state for
the single-call parts. -/
theorem wait_if_needed_spec_witness :
    (∃ rl', runCalls ⟨2, 10, []⟩ [0, 1, 2] = some rl' ∧
      rl'.requests.length ≤ 2 ∧
      ∀ now, (rl'.requests.filter (fun t => now - t < 10)).length ≤ 2) ∧
    (∃ t rl', wait_if_needed ⟨2, 10, []⟩ 0 = some (t, rl') ∧ (0:ℚ) ≤ t ∧
      ∃ pre, rl'.requests = pre ++ [t]) ∧
    wait_if_needed ⟨2, 10, []⟩ 0 =
      some (0, ⟨2, 10, ([] : List ℚ).filter (fun t => (0:ℚ) - t < 10) ++ [0]⟩) :=
  ⟨wait_if_needed_spec.1 2 10 [0, 1, 2] (by decide),
    wait_if_needed_spec.2.1 ⟨2, 10, []⟩ 0 (by decide) (by decide),
    wait_if_needed_spec.2.2 ⟨2, 10, []⟩ 0 (by simp)⟩

/-! ### PerformanceMonitor (`utils.py`, lines 347-381)

`checkpoints` is a Python `dict` mapping a checkpoint name to its
elapsed time since `start_time`; insertion order is preserved and
assigning an existing key overwrites in place.  The dict is embedded
as an insertion-ordered association list with `dictSet` as
`__setitem__`.  `get_summary` walks the checkpoints in insertion
order, emitting `f"{name}_duration" = elapsed - prev`, then sets
`summary["total_duration"] = max(self.checkpoints.values())`; an
empty checkpoint dict yields `{}`. -/

/-- Python `dict.__setitem__` on an insertion-ordered association
list: overwrite in place if the key exists, otherwise append. -/
def dictSet : List (String × ℚ) → String → ℚ → List (String × ℚ)
  | [], key, v => [(key, v)]
  | (k, w) :: rest, key, v =>
    if k = key then (k, v) :: rest else (k, w) :: dictSet rest key v

/-- Python `max` over a nonempty list of values (the `[]` case is
never reached by `get_summary`, which returns early on an empty
checkpoint dict). -/
def pyMax : List ℚ → ℚ
  | [] => 0
  | x :: xs => xs.foldl max x

structure PerformanceMonitor where
  start_time : Option ℚ
  checkpoints : List (String × ℚ)

/-- `PerformanceMonitor.start` at clock reading `t`. -/
def PerformanceMonitor.start (t : ℚ) : PerformanceMonitor :=
  ⟨some t, []⟩

/-- `PerformanceMonitor.checkpoint name` at clock reading `t`: if no
start time is set it is initialised to `t`; the checkpoint's elapsed
time since start is recorded under `name`. -/
def PerformanceMonitor.checkpoint (pm : PerformanceMonitor) (name : String) (t : ℚ) :
    PerformanceMonitor :=
  let st := pm.start_time.getD t
  ⟨some st, dictSet pm.checkpoints name (t - st)⟩

/-- The summary loop of `get_summary`: for each checkpoint in
insertion order, set `summary[name ++ "_duration"] = elapsed - prev`. -/
def summaryLoop : List (String × ℚ) → ℚ → List (String × ℚ) → List (String × ℚ)
  | acc, _, [] => acc
  | acc, prev, (name, t) :: rest =>
    summaryLoop (dictSet acc (name ++ "_duration") (t - prev)) t rest

/-- `PerformanceMonitor.get_summary`. -/
def PerformanceMonitor.get_summary (pm : PerformanceMonitor) : List (String × ℚ) :=
  if pm.checkpoints.isEmpty then []
  else
    dictSet (summaryLoop [] 0 pm.checkpoints) "total_duration"
      (pyMax (pm.checkpoints.map Prod.snd))

/-- `start` followed by recording the checkpoints `recs` (name paired
with the clock reading at which `checkpoint` was called). -/
def runMonitor (t0 : ℚ) (recs : List (String × ℚ)) : PerformanceMonitor :=
  recs.foldl (fun pm r => pm.checkpoint r.1 r.2) (PerformanceMonitor.start t0)

/-- Appending `"_duration"` to a name is injective. -/
theorem append_duration_injective :
    Function.Injective (fun s : String => s ++ "_duration") := by
  intro a b hab
  have hab' : a ++ "_duration" = b ++ "_duration" := hab
  have hdata : a.data ++ "_duration".data = b.data ++ "_duration".data := by
    rw [← String.data_append, ← String.data_append, hab']
  exact String.ext (List.append_cancel_right hdata)

/-- Assigning a fresh key appends it to the association list. -/
theorem dictSet_of_not_mem (l : List (String × ℚ)) (key : String) (v : ℚ)
    (h : key ∉ l.map Prod.fst) :
    dictSet l key v = l ++ [(key, v)] := by
  induction l with
  | nil => rfl
  | cons kw rest ih =>
    obtain ⟨k, w⟩ := kw
    simp only [List.map_cons, List.mem_cons] at h
    push_neg at h
    simp only [dictSet, if_neg (Ne.symm h.1)]
    rw [ih h.2, List.cons_append]

/-- Recording checkpoints with pairwise distinct names onto a started
monitor appends the `(name, clock - start)` entries in order. -/
theorem runMonitor_checkpoints_aux (t0 : ℚ) (recs : List (String × ℚ))
    (acc : List (String × ℚ))
    (hdisj : ∀ r ∈ recs, r.1 ∉ acc.map Prod.fst)
    (hnodup : (recs.map Prod.fst).Nodup) :
    recs.foldl (fun pm r => pm.checkpoint r.1 r.2)
        (⟨some t0, acc⟩ : PerformanceMonitor)
      = ⟨some t0, acc ++ recs.map (fun r => (r.1, r.2 - t0))⟩ := by
  induction recs generalizing acc with
  | nil => simp
  | cons r rest ih =>
    simp only [List.map_cons, List.nodup_cons] at hnodup
    have hstep : (⟨some t0, acc⟩ : PerformanceMonitor).checkpoint r.1 r.2
        = ⟨some t0, acc ++ [(r.1, r.2 - t0)]⟩ := by
      simp only [PerformanceMonitor.checkpoint, Option.getD_some]
      rw [dictSet_of_not_mem acc r.1 (r.2 - t0) (hdisj r (List.mem_cons_self _ _))]
    simp only [List.foldl_cons, hstep]
    rw [ih (acc ++ [(r.1, r.2 - t0)])]
    · simp
    · intro s hs
      simp only [List.map_append, List.map_cons, List.map_nil, List.mem_append,
        List.mem_singleton]
      push_neg
      refine ⟨hdisj s (List.mem_cons_of_mem _ hs), ?_⟩
      intro hcontra
      exact hnodup.1 (hcontra ▸ List.mem_map_of_mem Prod.fst hs)
    · exact hnodup.2

/-- The per-checkpoint duration entries emitted by the summary loop:
`(name ++ "_duration", elapsed - previous elapsed)`, in checkpoint
order. -/
def durations : ℚ → List (String × ℚ) → List (String × ℚ)
  | _, [] => []
  | prev, (name, t) :: rest => (name ++ "_duration", t - prev) :: durations t rest

/-- With pairwise distinct duration keys, the summary loop appends the
duration entries to its accumulator. -/
theorem summaryLoop_append (cps : List (String × ℚ)) (acc : List (String × ℚ)) (prev : ℚ)
    (hdisj : ∀ r ∈ cps, (r.1 ++ "_duration") ∉ acc.map Prod.fst)
    (hnodup : (cps.map (fun r => r.1 ++ "_duration")).Nodup) :
    summaryLoop acc prev cps = acc ++ durations prev cps := by
  induction cps generalizing acc prev with
  | nil => simp [summaryLoop, durations]
  | cons c rest ih =>
    obtain ⟨name, t⟩ := c
    simp only [List.map_cons, List.nodup_cons] at hnodup
    simp only [summaryLoop, durations]
    rw [dictSet_of_not_mem acc (name ++ "_duration") (t - prev)
      (hdisj ⟨name, t⟩ (List.mem_cons_self _ _))]
    rw [ih (acc ++ [(name ++ "_duration", t - prev)]) t]
    · simp
    · intro s hs
      simp only [List.map_append, List.map_cons, List.map_nil, List.mem_append,
        List.mem_singleton]
      push_neg
      refine ⟨hdisj s (List.mem_cons_of_mem _ hs), ?_⟩
      intro hcontra
      exact hnodup.1 (hcontra ▸ List.mem_map_of_mem (fun r => r.1 ++ "_duration") hs)
    · exact hnodup.2

/-- The duration keys, in order. -/
theorem durations_keys (prev : ℚ) (cps : List (String × ℚ)) :
    (durations prev cps).map Prod.fst = cps.map (fun r => r.1 ++ "_duration") := by
  induction cps generalizing prev with
  | nil => rfl
  | cons c rest ih =>
    obtain ⟨name, t⟩ := c
    simp only [durations, List.map_cons, ih]

/-- `getLastD` of a nonempty list ignores the default. -/
theorem getLastD_irrel (l : List ℚ) (hne : l ≠ []) (d e : ℚ) :
    l.getLastD d = l.getLastD e := by
  cases l with
  | nil => exact absurd rfl hne
  | cons x xs => rw [List.getLastD_cons, List.getLastD_cons]

/-- The duration values telescope: their sum is the last checkpoint's
elapsed time minus the starting previous value. -/
theorem durations_sum (cps : List (String × ℚ)) (prev : ℚ) (hne : cps ≠ []) :
    ((durations prev cps).map Prod.snd).sum = (cps.map Prod.snd).getLastD 0 - prev := by
  induction cps generalizing prev with
  | nil => exact absurd rfl hne
  | cons c rest ih =>
    obtain ⟨name, t⟩ := c
    cases hrest : rest with
    | nil => simp [durations]
    | cons d rest' =>
      have hrne : rest ≠ [] := by rw [hrest]; exact List.cons_ne_nil _ _
      have hmapne : rest.map Prod.snd ≠ [] := by
        rw [hrest]; exact List.cons_ne_nil _ _
      rw [← hrest]
      simp only [durations, List.map_cons, List.sum_cons, ih t hrne,
        List.getLastD_cons]
      rw [getLastD_irrel (rest.map Prod.snd) hmapne t 0]
      ring

/-- The seed of a `max`-fold is bounded by the fold, and the fold
value is an element of seed-plus-list. -/
theorem foldl_max_mem (xs : List ℚ) : ∀ a : ℚ, xs.foldl max a ∈ a :: xs := by
  induction xs with
  | nil => intro a; simp
  | cons y ys ih =>
    intro a
    simp only [List.foldl_cons]
    have h := ih (max a y)
    rcases List.mem_cons.mp h with h | h
    · rw [h]
      rcases max_choice a y with hm | hm <;> rw [hm]
      · exact List.mem_cons_self _ _
      · exact List.mem_cons_of_mem _ (List.mem_cons_self _ _)
    · exact List.mem_cons_of_mem _ (List.mem_cons_of_mem _ h)

/-- Every element of seed-plus-list is at most the `max`-fold. -/
theorem le_foldl_max (xs : List ℚ) : ∀ a z : ℚ, z ∈ a :: xs → z ≤ xs.foldl max a := by
  induction xs with
  | nil =>
    intro a z hz
    simp only [List.mem_singleton] at hz
    simp [hz]
  | cons b bs ih =>
    intro a z hz
    simp only [List.foldl_cons]
    have hseed : max a b ≤ bs.foldl max (max a b) :=
      ih (max a b) (max a b) (List.mem_cons_self _ _)
    rcases List.mem_cons.mp hz with hz | hz
    · exact le_trans (le_trans (le_of_eq hz) (le_max_left a b)) hseed
    · rcases List.mem_cons.mp hz with hz | hz
      · exact le_trans (le_trans (le_of_eq hz) (le_max_right a b)) hseed
      · exact ih (max a b) z (List.mem_cons_of_mem _ hz)

/-- `pyMax` of a nonempty list is an element of it. -/
theorem pyMax_mem (l : List ℚ) (hne : l ≠ []) : pyMax l ∈ l :=
  match l, hne with
  | x :: xs, _ => foldl_max_mem xs x

/-- `pyMax` bounds every element of the list. -/
theorem le_pyMax (l : List ℚ) (y : ℚ) (hy : y ∈ l) : y ≤ pyMax l :=
  match l, hy with
  | x :: xs, hy => le_foldl_max xs x y hy

/-- C10.  After `start()` and `n ≥ 1` checkpoints with pairwise
distinct names (none named `"total"`, whose duration key would collide
with the dict key `"total_duration"`) recorded at non-decreasing
times: `get_summary` consists of one `name ++ "_duration"` entry per
checkpoint, in order, holding the difference of consecutive elapsed
times, followed by a `"total_duration"` entry; the duration values
telescope — their sum equals the elapsed time recorded for the last
checkpoint — and the `"total_duration"` value is the maximum recorded
elapsed time (`pyMax` of the elapsed values, an element of them
bounding them all).  With no checkpoints recorded, `get_summary`
returns the empty dict. -/
theorem get_summary_spec :
    (∀ (t0 : ℚ) (recs : List (String × ℚ)),
      recs ≠ [] →
      (recs.map Prod.fst).Nodup →
      "total" ∉ recs.map Prod.fst →
      List.Chain' (· ≤ ·) (recs.map Prod.snd) →
      (runMonitor t0 recs).get_summary
          = durations 0 (recs.map (fun r => (r.1, r.2 - t0)))
            ++ [("total_duration", pyMax (recs.map (fun r => r.2 - t0)))] ∧
        (runMonitor t0 recs).get_summary.map Prod.fst
          = recs.map (fun r => r.1 ++ "_duration") ++ ["total_duration"] ∧
        ((runMonitor t0 recs).get_summary.dropLast.map Prod.snd).sum
          = (recs.map (fun r => r.2 - t0)).getLastD 0 ∧
        pyMax (recs.map (fun r => r.2 - t0)) ∈ recs.map (fun r => r.2 - t0) ∧
        (∀ y ∈ recs.map (fun r => r.2 - t0), y ≤ pyMax (recs.map (fun r => r.2 - t0)))) ∧
    (∀ t0 : ℚ, (runMonitor t0 []).get_summary = []) ∧
    (∀ pm : PerformanceMonitor, pm.checkpoints = [] → pm.get_summary = []) := by
  refine ⟨?_, ?_, ?_⟩
  · intro t0 recs hne hnodup hnototal hchain
    have hcps : (runMonitor t0 recs).checkpoints
        = recs.map (fun r => (r.1, r.2 - t0)) := by
      have := runMonitor_checkpoints_aux t0 recs [] (by simp) hnodup
      simp only [runMonitor, PerformanceMonitor.start]
      rw [this]
      simp
    have hcpsne : (runMonitor t0 recs).checkpoints ≠ [] := by
      rw [hcps]
      simpa using hne
    have hdurkeys : ((runMonitor t0 recs).checkpoints.map
        (fun r => r.1 ++ "_duration")).Nodup := by
      rw [hcps, List.map_map]
      have : ((fun r : String × ℚ => r.1 ++ "_duration") ∘ fun r : String × ℚ => (r.1, r.2 - t0))
          = (fun s => s ++ "_duration") ∘ Prod.fst := rfl
      rw [this, ← List.map_map]
      exact hnodup.map append_duration_injective
    have hsummaryLoop : summaryLoop [] 0 (runMonitor t0 recs).checkpoints
        = durations 0 (runMonitor t0 recs).checkpoints :=
      summaryLoop_append _ [] 0 (by simp) hdurkeys
    have htotalfresh : "total_duration"
        ∉ (durations 0 (runMonitor t0 recs).checkpoints).map Prod.fst := by
      rw [durations_keys, hcps, List.map_map]
      intro hmem
      obtain ⟨r, hr, hkey⟩ := List.mem_map.mp hmem
      have : r.1 = "total" := by
        apply append_duration_injective
        exact hkey
      exact hnototal (this ▸ List.mem_map_of_mem Prod.fst hr)
    have hvals : (runMonitor t0 recs).checkpoints.map Prod.snd
        = recs.map (fun r => r.2 - t0) := by
      rw [hcps, List.map_map]
      rfl
    have hsummary : (runMonitor t0 recs).get_summary
        = durations 0 (recs.map (fun r => (r.1, r.2 - t0)))
          ++ [("total_duration", pyMax (recs.map (fun r => r.2 - t0)))] := by
      unfold PerformanceMonitor.get_summary
      rw [if_neg (by simpa [List.isEmpty_iff] using hcpsne)]
      rw [hsummaryLoop, dictSet_of_not_mem _ _ _ htotalfresh, hvals, hcps]
    refine ⟨hsummary, ?_, ?_, ?_, ?_⟩
    · rw [hsummary]
      simp only [List.map_append, List.map_cons, List.map_nil]
      rw [durations_keys, List.map_map]
      rfl
    · rw [hsummary, List.dropLast_concat]
      have := durations_sum (recs.map (fun r => (r.1, r.2 - t0))) 0 (by simpa using hne)
      rw [this, List.map_map]
      have harg : (Prod.snd ∘ fun r : String × ℚ => (r.1, r.2 - t0))
          = fun r : String × ℚ => r.2 - t0 := rfl
      rw [harg, sub_zero]
    · exact pyMax_mem _ (by simpa using hne)
    · intro y hy
      exact le_pyMax _ y hy
  · intro t0
    rfl
  · intro pm h
    unfold PerformanceMonitor.get_summary
    rw [if_pos (by simp [h])]

/-- Witness for C10 at a concrete input: `start` at time 2, then
checkpoints `("a", 3)` and `("b", 7)`; the summary is
`[a_duration = 1, b_duration = 4, total_duration = 5]`, the duration
values sum to the last elapsed time 5, and 5 is the maximum elapsed
time. -/
theorem get_summary_spec_witness :
    ((runMonitor 2 [("a", 3), ("b", 7)]).get_summary
        = durations 0 ([("a", 3), ("b", 7)].map (fun r => (r.1, r.2 - 2)))
          ++ [("total_duration", pyMax ([("a", 3), ("b", 7)].map (fun r => r.2 - 2)))] ∧
      (runMonitor 2 [("a", 3), ("b", 7)]).get_summary.map Prod.fst
        = [("a", 3), ("b", 7)].map (fun r : String × ℚ => r.1 ++ "_duration")
          ++ ["total_duration"] ∧
      ((runMonitor 2 [("a", 3), ("b", 7)]).get_summary.dropLast.map Prod.snd).sum
        = ([("a", 3), ("b", 7)].map (fun r : String × ℚ => r.2 - 2)).getLastD 0 ∧
      pyMax ([("a", 3), ("b", 7)].map (fun r : String × ℚ => r.2 - 2))
        ∈ [("a", 3), ("b", 7)].map (fun r : String × ℚ => r.2 - 2) ∧
      (∀ y ∈ [("a", 3), ("b", 7)].map (fun r : String × ℚ => r.2 - 2),
        y ≤ pyMax ([("a", 3), ("b", 7)].map (fun r : String × ℚ => r.2 - 2)))) ∧
    (runMonitor 2 ([] : List (String × ℚ))).get_summary = [] :=
  ⟨get_summary_spec.1 2 [("a", 3), ("b", 7)] (by simp)
      (by simp)
      (by simp)
      (by simp [List.chain'_cons]; norm_num),
    get_summary_spec.2.1 2⟩

/-! ### StoryboardGenerator (`video_generator.py`, lines 41-207)

`_parse_storyboard_response` locates the JSON payload between the
first `'\x7b'` (`str.find`) and the last `'\x7d'` (`str.rfind`) of the
response text, returns `[]` if either is absent, parses the slice with
`json.loads` (a `JSONDecodeError` is caught and yields `[]`), then
builds one `StoryboardScene` per entry of `data.get('scenes', [])`,
filling each absent field with its default (`duration` defaults to 8).
Any other exception — e.g. the `AttributeError` from `.get` on a
non-dict — is caught and yields `[]`.

The external `json.loads` is a parameter
`loads : String → Except String Json`; `Json` is a standard JSON
value tree. -/

inductive Json where
  | null : Json
  | bool (b : Bool) : Json
  | num (q : ℚ) : Json
  | str (s : String) : Json
  | arr (elems : List Json) : Json
  | obj (fields : List (String × Json)) : Json

/-- Python `dict.get(key, default)` on a parsed JSON object. -/
def jsonGet (fields : List (String × Json)) (key : String) (default : Json) : Json :=
  match fields with
  | [] => default
  | (k, v) :: rest => if k = key then v else jsonGet rest key default

/-- One storyboard scene as built by `_parse_storyboard_response`;
each field holds the raw JSON value taken from the entry (Python's
dataclass performs no conversion), with the documented default when
the key is absent. -/
structure StoryboardScene where
  scene_id : Json
  scene_title : Json
  scene_description : Json
  duration : Json
  visual_elements : Json
  text_overlay : Json
  background_music : Json
  transition_effect : Json

/-- Building one scene from a scene entry's fields, with the defaults
of `_parse_storyboard_response` (duration defaults to 8, visual
elements to `[]`, the other fields to `""`). -/
def mkScene (fields : List (String × Json)) : StoryboardScene :=
  { scene_id := jsonGet fields "scene_id" (Json.str "")
    scene_title := jsonGet fields "scene_title" (Json.str "")
    scene_description := jsonGet fields "scene_description" (Json.str "")
    duration := jsonGet fields "duration" (Json.num 8)
    visual_elements := jsonGet fields "visual_elements" (Json.arr [])
    text_overlay := jsonGet fields "text_overlay" (Json.str "")
    background_music := jsonGet fields "background_music" (Json.str "")
    transition_effect := jsonGet fields "transition_effect" (Json.str "") }

/-- The `for scene_data in data.get('scenes', [])` loop: each entry
must be a JSON object (`scene_data.get` on anything else raises
`AttributeError`, embedded as `none`; the caller catches it and
returns `[]`). -/
def parseScenes : List Json → Option (List StoryboardScene)
  | [] => some []
  | Json.obj fields :: rest => (parseScenes rest).map (mkScene fields :: ·)
  | _ :: _ => none

/-- Python `str.find(c)`: index of the first occurrence, `-1` if
absent. -/
def pyFind (s : List Char) (c : Char) : Int :=
  match s with
  | [] => -1
  | x :: xs =>
    if x = c then 0
    else
      let r := pyFind xs c
      if r = -1 then -1 else r + 1

/-- Python `str.rfind(c)`: index of the last occurrence, `-1` if
absent. -/
def pyRfind (s : List Char) (c : Char) : Int :=
  match s with
  | [] => -1
  | x :: xs =>
    let r := pyRfind xs c
    if r = -1 then (if x = c then 0 else -1) else r + 1

/-- Python slice `s[a:b]` for `0 ≤ a ≤ b`. -/
def pySlice (s : List Char) (a b : Nat) : List Char :=
  (s.take b).drop a

/-- The JSON slice `response_text[json_start:json_end]` that
`_parse_storyboard_response` hands to `json.loads`. -/
def extractJsonText (response_text : String) : String :=
  let chars := response_text.data
  let json_start := pyFind chars '\x7b'
  let json_end := pyRfind chars '\x7d' + 1
  String.mk (pySlice chars json_start.toNat json_end.toNat)

/-- `StoryboardGenerator._parse_storyboard_response`. -/
def parse_storyboard_response (loads : String → Except String Json)
    (response_text : String) : List StoryboardScene :=
  let chars := response_text.data
  let json_start := pyFind chars '\x7b'
  let json_end := pyRfind chars '\x7d' + 1
  if json_start = -1 ∨ json_end = 0 then []
  else
    match loads (extractJsonText response_text) with
    | .error _ => []          -- json.JSONDecodeError: logged, not raised
    | .ok data =>
      match data with
      | Json.obj fields =>
        match jsonGet fields "scenes" (Json.arr []) with
        | Json.arr entries =>
          match parseScenes entries with
          | some scenes => scenes
          | none => []        -- AttributeError from scene_data.get: caught
        | _ => []             -- iterating a non-list yields no scene or raises: caught
      | _ => []               -- AttributeError from data.get on a non-dict: caught

/-- The HTTP outcome of the LLM chat-completion call made by
`generate_storyboard`: status 200 with the message content, a non-200
status, or a raised network exception. -/
inductive LLMResult where
  | ok (content : String) : LLMResult
  | httpError (status : Nat) : LLMResult
  | exn (msg : String) : LLMResult

/-- `StoryboardGenerator.generate_storyboard`: on HTTP 200 the message
content is parsed; a non-200 status or an exception yields `[]`.
`num_scenes` only parameterises the prompt sent to the collaborator —
it does not constrain the parsed result. -/
def generate_storyboard (loads : String → Except String Json) :
    LLMResult → Nat → List StoryboardScene
  | .ok content, _num_scenes => parse_storyboard_response loads content
  | .httpError _, _ => []
  | .exn _, _ => []

/-- `pyFind` is at least `-1`. -/
theorem pyFind_ge_neg_one (s : List Char) (c : Char) : -1 ≤ pyFind s c := by
  induction s with
  | nil => simp [pyFind]
  | cons x xs ih =>
    simp only [pyFind]
    by_cases hx : x = c
    · simp [hx]
    · simp only [hx, if_false]
      by_cases hr : pyFind xs c = -1
      · simp [hr]
      · simp only [hr, if_false]
        omega

/-- `pyRfind` is at least `-1`. -/
theorem pyRfind_ge_neg_one (s : List Char) (c : Char) : -1 ≤ pyRfind s c := by
  induction s with
  | nil => simp [pyRfind]
  | cons x xs ih =>
    simp only [pyRfind]
    by_cases hr : pyRfind xs c = -1
    · simp only [hr, if_pos]
      by_cases hx : x = c <;> simp [hx]
    · simp only [hr, if_false]
      omega

/-- A present character is found at a nonnegative index. -/
theorem pyFind_nonneg_of_mem (s : List Char) (c : Char) (h : c ∈ s) :
    0 ≤ pyFind s c := by
  induction s with
  | nil => simp at h
  | cons x xs ih =>
    simp only [pyFind]
    by_cases hx : x = c
    · simp [hx]
    · simp only [hx, if_false]
      have hmem : c ∈ xs := by
        rcases List.mem_cons.mp h with h | h
        · exact absurd h.symm hx
        · exact h
      have h0 := ih hmem
      have hne : pyFind xs c ≠ -1 := by omega
      simp only [hne, if_false]
      omega

/-- A present character is r-found at a nonnegative index. -/
theorem pyRfind_nonneg_of_mem (s : List Char) (c : Char) (h : c ∈ s) :
    0 ≤ pyRfind s c := by
  induction s with
  | nil => simp at h
  | cons x xs ih =>
    simp only [pyRfind]
    by_cases hr : pyRfind xs c = -1
    · simp only [hr, if_pos]
      by_cases hx : x = c
      · simp [hx]
      · have hmem : c ∈ xs := by
          rcases List.mem_cons.mp h with h | h
          · exact absurd h.symm hx
          · exact h
        have := ih hmem
        omega
    · simp only [hr, if_false]
      have := pyRfind_ge_neg_one xs c
      omega

/-- An absent character is not found. -/
theorem pyFind_eq_neg_one (s : List Char) (c : Char) (h : c ∉ s) :
    pyFind s c = -1 := by
  induction s with
  | nil => rfl
  | cons x xs ih =>
    simp only [List.mem_cons] at h
    push_neg at h
    simp only [pyFind, if_neg (Ne.symm h.1)]
    simp [ih h.2]

/-- An absent character is not r-found. -/
theorem pyRfind_eq_neg_one (s : List Char) (c : Char) (h : c ∉ s) :
    pyRfind s c = -1 := by
  induction s with
  | nil => rfl
  | cons x xs ih =>
    simp only [List.mem_cons] at h
    push_neg at h
    simp only [pyRfind, ih h.2, if_pos]
    simp [Ne.symm h.1]

/-- C6.  `_parse_storyboard_response` never raises to its caller — it
is a total function of the response text — and its failure modes yield
the empty scene list: (i) if the text contains no opening or no
closing brace, no structured payload is located and the result is
`[]`; (ii) if `json.loads` rejects the extracted payload
(`JSONDecodeError`), the error is swallowed (logged) and the result is
`[]`, for every parser behaviour `loads` and every response text. -/
theorem parse_storyboard_response_spec :
    (∀ (loads : String → Except String Json) (response_text : String),
      '\x7b' ∉ response_text.data ∨ '\x7d' ∉ response_text.data →
      parse_storyboard_response loads response_text = []) ∧
    (∀ (loads : String → Except String Json) (response_text : String) (e : String),
      loads (extractJsonText response_text) = .error e →
      parse_storyboard_response loads response_text = []) := by
  constructor
  · intro loads response_text h
    unfold parse_storyboard_response
    rcases h with h | h
    · rw [if_pos (Or.inl (pyFind_eq_neg_one _ _ h))]
    · rw [if_pos (Or.inr (by rw [pyRfind_eq_neg_one _ _ h]; decide))]
  · intro loads response_text e herr
    unfold parse_storyboard_response
    by_cases hcond : pyFind response_text.data '\x7b' = -1 ∨
        pyRfind response_text.data '\x7d' + 1 = 0
    · rw [if_pos hcond]
    · rw [if_neg hcond, herr]

/-- Witness for C6 at concrete inputs: a brace-free response yields
`[]`, and a response whose extracted payload the parser rejects yields
`[]` (with a parser that rejects everything). -/
theorem parse_storyboard_response_spec_witness :
    parse_storyboard_response (fun _ => .error "boom") "no payload here" = [] ∧
    parse_storyboard_response (fun _ => .error "boom") "text \x7bmalformed\x7d text" = [] :=
  ⟨parse_storyboard_response_spec.1 _ "no payload here" (Or.inl (by decide)),
    parse_storyboard_response_spec.2 _ "text \x7bmalformed\x7d text" "boom" rfl⟩

/-- All-object scene entries parse without exception, one scene per
entry. -/
theorem parseScenes_length (entries : List Json)
    (hobjs : ∀ j ∈ entries, ∃ f, j = Json.obj f) :
    ∃ l, parseScenes entries = some l ∧ l.length = entries.length := by
  induction entries with
  | nil => exact ⟨[], rfl, rfl⟩
  | cons j rest ih =>
    obtain ⟨f, hf⟩ := hobjs j (List.mem_cons_self _ _)
    obtain ⟨l, hl, hlen⟩ := ih (fun k hk => hobjs k (List.mem_cons_of_mem _ hk))
    subst hf
    refine ⟨mkScene f :: l, ?_, by simp [hlen]⟩
    simp [parseScenes, hl]

/-- A `json.loads` behaviour consistent with the payload
`{"scenes": [{}, {}]}` at that exact input text. -/
def loadsTwoScenes : String → Except String Json := fun s =>
  if s = "\x7b\"scenes\": [\x7b\x7d, \x7b\x7d]\x7d"
  then .ok (Json.obj [("scenes", Json.arr [Json.obj [], Json.obj []])])
  else .error "unexpected input"

/-- Counterexample to C7: a collaborator response whose payload holds
two scene entries, requested with `num_scenes = 1`, yields a result of
length 2 — `generate_storyboard` never truncates to the requested
count, so `len(result) <= n` fails. -/
theorem generate_storyboard_exceeds_requested :
    1 < (generate_storyboard loadsTwoScenes
      (LLMResult.ok "\x7b\"scenes\": [\x7b\x7d, \x7b\x7d]\x7d") 1).length := by
  decide

/-- C7 (amended).  The returned sequence length equals the number of
entries in the payload's `scenes` array: the result is never padded to
the requested count `n` (so it may be shorter than `n`), but it is not
truncated either, so it may also exceed `n`; `n` does not constrain
the result. -/
theorem generate_storyboard_length_spec
    (loads : String → Except String Json) (content : String) (num_scenes : Nat)
    (fields : List (String × Json)) (entries : List Json)
    (hopen : '\x7b' ∈ content.data) (hclose : '\x7d' ∈ content.data)
    (hok : loads (extractJsonText content) = .ok (Json.obj fields))
    (hscenes : jsonGet fields "scenes" (Json.arr []) = Json.arr entries)
    (hobjs : ∀ j ∈ entries, ∃ f, j = Json.obj f) :
    (generate_storyboard loads (LLMResult.ok content) num_scenes).length
      = entries.length := by
  obtain ⟨l, hl, hlen⟩ := parseScenes_length entries hobjs
  have hfind := pyFind_nonneg_of_mem content.data '\x7b' hopen
  have hrfind := pyRfind_nonneg_of_mem content.data '\x7d' hclose
  simp only [generate_storyboard, parse_storyboard_response]
  rw [if_neg (by push_neg; omega)]
  rw [hok]
  simp only [hscenes, hl]
  exact hlen

/-- Witness for the amended C7 at a concrete input: the two-entry
payload with `num_scenes = 5` yields exactly 2 scenes. -/
theorem generate_storyboard_length_spec_witness :
    (generate_storyboard loadsTwoScenes
      (LLMResult.ok "\x7b\"scenes\": [\x7b\x7d, \x7b\x7d]\x7d") 5).length = 2 :=
  generate_storyboard_length_spec loadsTwoScenes
    "\x7b\"scenes\": [\x7b\x7d, \x7b\x7d]\x7d" 5
    [("scenes", Json.arr [Json.obj [], Json.obj []])]
    [Json.obj [], Json.obj []]
    (by decide) (by decide) rfl
    rfl
    (by intro j hj
        rcases List.mem_cons.mp hj with h | h
        · exact ⟨[], h⟩
        · rcases List.mem_cons.mp h with h | h
          · exact ⟨[], h⟩
          · simp at h)

/-! ### DoubaoSeedanceAPI (`video_generator.py`, lines 209-361)

`generate_video(scene)` posts a synthesis request and returns a
`VideoGenerationResult`.  On HTTP 200 with a truthy `video_url` it
downloads via `_download_video` and returns `status="success"` with
the URL, the downloaded path and the elapsed time; on a falsy
`video_url`, a non-200 status, or an exception it returns
`status="failed"` with an error message.  `_download_video` streams to
`f"{scene_id}_{timestamp}.mp4"` inside `output_dir` — but on a non-200
download status or an exception it returns `None`, which
`generate_video` stores as `video_path` while still reporting
`status="success"`.

The HTTP collaborators are parameters: `gen` is the outcome of the
generation POST (the 200 body reduced to its `video_url` field, which
`result.get('video_url')` reads), `dl` the outcome of the download
GET; `timestamp` stands for `datetime.now().strftime(...)`, `elapsed`
for the measured generation time. -/

/-- Embedded mirror of the `VideoGenerationResult` dataclass. -/
structure VideoGenerationResult where
  scene_id : String
  status : String
  video_url : Option String
  video_path : Option String
  error_message : Option String
  generation_time : Option ℚ

/-- Outcome of the generation POST: HTTP 200 with the body's
`video_url` field (`none` when the key is absent — `dict.get` returns
`None`), a non-200 status with its error body, or a raised
exception. -/
inductive GenApiOutcome where
  | ok (video_url : Option String) : GenApiOutcome
  | httpError (status : Nat) (body : String) : GenApiOutcome
  | exn (msg : String) : GenApiOutcome

/-- Outcome of the download GET: HTTP 200 (the body is streamed to the
file), a non-200 status, or a raised exception. -/
inductive DownloadOutcome where
  | ok : DownloadOutcome
  | httpError (status : Nat) : DownloadOutcome
  | exn (msg : String) : DownloadOutcome

/-- `DoubaoSeedanceAPI._download_video`: on HTTP 200 returns the local
path `f"{output_dir}/{scene_id}_{timestamp}.mp4"`; on a non-200 status
or an exception it logs and returns `None` (despite its `-> str`
annotation). -/
def download_video (dl : DownloadOutcome) (scene_id output_dir timestamp : String) :
    Option String :=
  match dl with
  | .ok => some (output_dir ++ "/" ++ scene_id ++ "_" ++ timestamp ++ ".mp4")
  | .httpError _ => none
  | .exn _ => none

/-- `DoubaoSeedanceAPI.generate_video`, for the scene with identifier
`scene_id`. -/
def generate_video (scene_id : String) (gen : GenApiOutcome) (dl : DownloadOutcome)
    (timestamp : String) (elapsed : ℚ) (output_dir : String) : VideoGenerationResult :=
  match gen with
  | .ok video_url =>
    -- `if video_url:` — truthy means present and non-empty
    if video_url.isSome ∧ video_url.getD "" ≠ "" then
      { scene_id := scene_id
        status := "success"
        video_url := video_url
        video_path := download_video dl scene_id output_dir timestamp
        error_message := none
        generation_time := some elapsed }
    else
      { scene_id := scene_id
        status := "failed"
        video_url := none
        video_path := none
        error_message := some "API返回的视频URL为空"
        generation_time := none }
  | .httpError status body =>
      { scene_id := scene_id
        status := "failed"
        video_url := none
        video_path := none
        error_message := some ("API调用失败: " ++ toString status ++ " - " ++ body)
        generation_time := none }
  | .exn msg =>
      { scene_id := scene_id
        status := "failed"
        video_url := none
        video_path := none
        error_message := some msg
        generation_time := none }

/-- The parts of the claim the code does satisfy: the status is
always `"success"` or `"failed"`, a failed outcome carries an error
description, and a success carries the artifact URL and the elapsed
duration. -/
theorem generate_video_status_facts
    (scene_id : String) (gen : GenApiOutcome) (dl : DownloadOutcome)
    (ts : String) (el : ℚ) (dir : String) :
    ((generate_video scene_id gen dl ts el dir).status = "success" ∨
      (generate_video scene_id gen dl ts el dir).status = "failed") ∧
    ((generate_video scene_id gen dl ts el dir).status = "failed" →
      (generate_video scene_id gen dl ts el dir).error_message.isSome) ∧
    ((generate_video scene_id gen dl ts el dir).status = "success" →
      (generate_video scene_id gen dl ts el dir).video_url.isSome ∧
        (generate_video scene_id gen dl ts el dir).generation_time.isSome) := by
  match gen with
  | .ok video_url =>
    by_cases h : video_url.isSome ∧ video_url.getD "" ≠ ""
    · refine ⟨Or.inl ?_, ?_, ?_⟩
      · simp [generate_video, h]
      · intro hfail
        simp [generate_video, h] at hfail
      · intro _
        simp [generate_video, h]
    · refine ⟨Or.inr ?_, ?_, ?_⟩
      · simp [generate_video, h]
      · intro _
        simp [generate_video, h]
      · intro hsucc
        simp [generate_video, h] at hsucc
  | .httpError status body =>
    refine ⟨Or.inr rfl, fun _ => rfl, ?_⟩
    intro hsucc
    simp [generate_video] at hsucc
  | .exn msg =>
    refine ⟨Or.inr rfl, fun _ => rfl, ?_⟩
    intro hsucc
    simp [generate_video] at hsucc

/-- C8 (code bug).  A success outcome does NOT always carry a local
artifact path: when the generation POST succeeds with a URL and the
artifact download then fails (here: the download GET returns 500),
`_download_video` returns `None` — contradicting its own `-> str`
annotation and docstring — and `generate_video` still reports
`status = "success"` with `video_path = None` (and, per
`generate_video_status_facts`, the rest of the claim holds). -/
theorem generate_video_success_without_path :
    (generate_video "scene_1" (GenApiOutcome.ok (some "http://v/a.mp4"))
      (DownloadOutcome.httpError 500) "20260101_000000" 5 "videos").status
      = "success" ∧
    (generate_video "scene_1" (GenApiOutcome.ok (some "http://v/a.mp4"))
      (DownloadOutcome.httpError 500) "20260101_000000" 5 "videos").video_path
      = none :=
  ⟨rfl, rfl⟩

/-! ### ConfigManager (`config.py`, lines 50-179)

`get_config` first checks the six required keys with
`if not os.getenv(key)` (absent or empty means missing, raising
`ValueError`), then builds the `Config` with `os.getenv(key, default)`
for optional keys — `int(...)` on the numeric ones can itself raise
`ValueError` — and finally runs `_validate_config`, which checks
`note_type ∈ {0,1,2}`, `sort ∈ {0,1,2}`, `total_number > 0`,
`log_level.upper()` in the valid set, `request_timeout > 0` and
`max_retries ≥ 0`.  It never checks `default_scene_count`.

The environment is a parameter `env : String → Option String`
(`os.getenv`).  Raised `ValueError`s become `Except.error`. -/

structure Config where
  xhs_cookie : String
  llm_api_key : String
  llm_base_url : String
  notion_token : String
  original_database_id : String
  processed_database_id : String
  doubao_api_key : String
  doubao_base_url : String
  video_output_dir : String
  default_scene_count : Int
  video_resolution : String
  video_style : String
  note_type : Int
  sort : Int
  total_number : Int
  log_level : String
  request_timeout : Int
  max_retries : Int

/-- Decimal digits to a natural number. -/
def digitsToNat (ds : List Char) : Nat :=
  ds.foldl (fun acc c => acc * 10 + (c.toNat - '0'.toNat)) 0

/-- Python `int(s)` on the strings produced here: an optional sign
followed by one or more digits (whitespace-free env values); anything
else raises `ValueError`, embedded as `none`. -/
def pyInt (s : String) : Option Int :=
  match s.data with
  | [] => none
  | '-' :: ds =>
    if ds ≠ [] ∧ ds.all Char.isDigit
    then some (-(digitsToNat ds : Int))
    else none
  | ds =>
    if ds.all Char.isDigit then some ((digitsToNat ds : Int)) else none

/-- `os.getenv(key, default)`. -/
def getenvD (env : String → Option String) (key default : String) : String :=
  (env key).getD default

/-- The six required keys, with `if not os.getenv(key)`: absent or
empty counts as missing. -/
def requiredKeys : List String :=
  ["XHS_COOKIE", "LLM_API_KEY", "NOTION_TOKEN", "ORIGINAL_DATABASE_ID",
    "PROCESSED_DATABASE_ID", "DOUBAO_API_KEY"]

def missingConfigs (env : String → Option String) : List String :=
  requiredKeys.filter (fun k => (env k).getD "" = "")

/-- Python `str.upper()`. -/
def pyUpper (s : String) : String :=
  String.mk (s.data.map Char.toUpper)

/-- `ConfigManager._validate_config`, with its checks in source
order.  Note: `default_scene_count` is never validated. -/
def validate_config (config : Config) : Except String Unit :=
  if config.note_type ≠ 0 ∧ config.note_type ≠ 1 ∧ config.note_type ≠ 2 then
    .error "NOTE_TYPE必须是0(全部)、1(视频)或2(图文)"
  else if config.sort ≠ 0 ∧ config.sort ≠ 1 ∧ config.sort ≠ 2 then
    .error "SORT必须是0(综合)、1(最新)或2(最热)"
  else if config.total_number ≤ 0 then
    .error "TOTAL_NUMBER必须大于0"
  else if pyUpper config.log_level ∉ ["DEBUG", "INFO", "WARNING", "ERROR"] then
    .error "LOG_LEVEL必须是以下之一: DEBUG, INFO, WARNING, ERROR"
  else if config.request_timeout ≤ 0 then
    .error "REQUEST_TIMEOUT必须大于0"
  else if config.max_retries < 0 then
    .error "MAX_RETRIES必须大于等于0"
  else
    .ok ()

/-- `ConfigManager.get_config`: required-key check, construction with
defaults (the `int(...)` conversions raise on non-numeric values, in
source evaluation order), then validation. -/
def get_config (env : String → Option String) : Except String Config :=
  if missingConfigs env ≠ [] then
    .error "缺少必需配置项"
  else
    match pyInt (getenvD env "DEFAULT_SCENE_COUNT" "3") with
    | none => .error "invalid literal for int(): DEFAULT_SCENE_COUNT"
    | some default_scene_count =>
    match pyInt (getenvD env "NOTE_TYPE" "2") with
    | none => .error "invalid literal for int(): NOTE_TYPE"
    | some note_type =>
    match pyInt (getenvD env "SORT" "2") with
    | none => .error "invalid literal for int(): SORT"
    | some sort =>
    match pyInt (getenvD env "TOTAL_NUMBER" "2") with
    | none => .error "invalid literal for int(): TOTAL_NUMBER"
    | some total_number =>
    match pyInt (getenvD env "REQUEST_TIMEOUT" "30") with
    | none => .error "invalid literal for int(): REQUEST_TIMEOUT"
    | some request_timeout =>
    match pyInt (getenvD env "MAX_RETRIES" "3") with
    | none => .error "invalid literal for int(): MAX_RETRIES"
    | some max_retries =>
      let config : Config :=
        { xhs_cookie := (env "XHS_COOKIE").getD ""
          llm_api_key := (env "LLM_API_KEY").getD ""
          llm_base_url := getenvD env "LLM_BASE_URL" "https://api.deepseek.com"
          notion_token := (env "NOTION_TOKEN").getD ""
          original_database_id := (env "ORIGINAL_DATABASE_ID").getD ""
          processed_database_id := (env "PROCESSED_DATABASE_ID").getD ""
          doubao_api_key := (env "DOUBAO_API_KEY").getD ""
          doubao_base_url := getenvD env "DOUBAO_BASE_URL"
            "https://ark.cn-beijing.volces.com/api/v3"
          video_output_dir := getenvD env "VIDEO_OUTPUT_DIR" "videos"
          default_scene_count := default_scene_count
          video_resolution := getenvD env "VIDEO_RESOLUTION" "720p"
          video_style := getenvD env "VIDEO_STYLE" "realistic"
          note_type := note_type
          sort := sort
          total_number := total_number
          log_level := getenvD env "LOG_LEVEL" "INFO"
          request_timeout := request_timeout
          max_retries := max_retries }
      match validate_config config with
      | .error e => .error e
      | .ok _ => .ok config

/-- What a passing validation guarantees, check by check. -/
theorem validate_config_ok (c : Config) (u : Unit) (h : validate_config c = .ok u) :
    (c.note_type = 0 ∨ c.note_type = 1 ∨ c.note_type = 2) ∧
      (c.sort = 0 ∨ c.sort = 1 ∨ c.sort = 2) ∧
      0 < c.total_number ∧
      pyUpper c.log_level ∈ ["DEBUG", "INFO", "WARNING", "ERROR"] ∧
      0 < c.request_timeout ∧
      0 ≤ c.max_retries := by
  unfold validate_config at h
  split_ifs at h with h1 h2 h3 h4 h5 h6
  push_neg at h1 h2
  exact ⟨by tauto, by tauto, by omega, by simpa using h4, by omega, by omega⟩

/-- C9 (amended).  `get_config` fails fast before any pipeline run on
exactly the violations `_validate_config` checks: whenever it returns
a `Config`, the six required settings are present and non-empty,
`note_type` and `sort` lie in `{0,1,2}`, the log level (upper-cased)
is valid, `total_number` and `request_timeout` are positive and
`max_retries` is nonnegative; and for an environment that sets only
the required keys it returns the fully populated `Config` with the
documented defaults (scene count 3, note type 2, sort 2, cap 2, log
level INFO, timeout 30, retries 3).  `default_scene_count`, however,
is NOT validated (see the counterexample). -/
theorem get_config_spec :
    (∀ (env : String → Option String) (c : Config), get_config env = .ok c →
      (∀ k ∈ requiredKeys, (env k).getD "" ≠ "") ∧
      (c.note_type = 0 ∨ c.note_type = 1 ∨ c.note_type = 2) ∧
      (c.sort = 0 ∨ c.sort = 1 ∨ c.sort = 2) ∧
      0 < c.total_number ∧
      pyUpper c.log_level ∈ ["DEBUG", "INFO", "WARNING", "ERROR"] ∧
      0 < c.request_timeout ∧
      0 ≤ c.max_retries) ∧
    (∀ env : String → Option String,
      (∀ k ∈ requiredKeys, ∃ v, env k = some v ∧ v ≠ "") →
      (∀ k, k ∉ requiredKeys → env k = none) →
      ∃ c, get_config env = .ok c ∧
        c.default_scene_count = 3 ∧ c.note_type = 2 ∧ c.sort = 2 ∧
        c.total_number = 2 ∧ c.log_level = "INFO" ∧ c.request_timeout = 30 ∧
        c.max_retries = 3 ∧ c.llm_base_url = "https://api.deepseek.com" ∧
        c.video_output_dir = "videos" ∧ c.video_resolution = "720p" ∧
        c.video_style = "realistic") := by
  constructor
  · intro env c hok
    unfold get_config at hok
    split at hok
    · exact absurd hok (by simp)
    · rename_i hmiss
      have hreq : ∀ k ∈ requiredKeys, (env k).getD "" ≠ "" := by
        push_neg at hmiss
        intro k hk
        have := (List.filter_eq_nil_iff.mp hmiss) k hk
        simpa using this
      split at hok
      · exact absurd hok (by simp)
      split at hok
      · exact absurd hok (by simp)
      split at hok
      · exact absurd hok (by simp)
      split at hok
      · exact absurd hok (by simp)
      split at hok
      · exact absurd hok (by simp)
      split at hok
      · exact absurd hok (by simp)
      simp only [] at hok
      split at hok
      · exact absurd hok (by simp)
      · rename_i u hvalid
        have hc : _ = c := (Except.ok.injEq _ _).mp hok
        subst hc
        exact ⟨hreq, validate_config_ok _ u hvalid⟩
  · intro env hreq hopt
    have hmiss : missingConfigs env = [] := by
      unfold missingConfigs
      rw [List.filter_eq_nil_iff]
      intro k hk
      obtain ⟨v, hv, hvne⟩ := hreq k hk
      simp [hv, hvne]
    have e1 : env "DEFAULT_SCENE_COUNT" = none := hopt _ (by decide)
    have e2 : env "NOTE_TYPE" = none := hopt _ (by decide)
    have e3 : env "SORT" = none := hopt _ (by decide)
    have e4 : env "TOTAL_NUMBER" = none := hopt _ (by decide)
    have e5 : env "REQUEST_TIMEOUT" = none := hopt _ (by decide)
    have e6 : env "MAX_RETRIES" = none := hopt _ (by decide)
    have e7 : env "LLM_BASE_URL" = none := hopt _ (by decide)
    have e8 : env "DOUBAO_BASE_URL" = none := hopt _ (by decide)
    have e9 : env "VIDEO_OUTPUT_DIR" = none := hopt _ (by decide)
    have e10 : env "VIDEO_RESOLUTION" = none := hopt _ (by decide)
    have e11 : env "VIDEO_STYLE" = none := hopt _ (by decide)
    have e12 : env "LOG_LEVEL" = none := hopt _ (by decide)
    have hconf : get_config env = .ok
        { xhs_cookie := (env "XHS_COOKIE").getD ""
          llm_api_key := (env "LLM_API_KEY").getD ""
          llm_base_url := "https://api.deepseek.com"
          notion_token := (env "NOTION_TOKEN").getD ""
          original_database_id := (env "ORIGINAL_DATABASE_ID").getD ""
          processed_database_id := (env "PROCESSED_DATABASE_ID").getD ""
          doubao_api_key := (env "DOUBAO_API_KEY").getD ""
          doubao_base_url := "https://ark.cn-beijing.volces.com/api/v3"
          video_output_dir := "videos"
          default_scene_count := 3
          video_resolution := "720p"
          video_style := "realistic"
          note_type := 2
          sort := 2
          total_number := 2
          log_level := "INFO"
          request_timeout := 30
          max_retries := 3 } := by
      unfold get_config
      rw [if_neg (by simp [hmiss])]
      simp only [getenvD, e1, e2, e3, e4, e5, e6, e7, e8, e9, e10, e11, e12,
        Option.getD_none]
      rfl
    exact ⟨_, hconf, rfl, rfl, rfl, rfl, rfl, rfl, rfl, rfl, rfl, rfl, rfl⟩

/-- An environment with every required key set (non-empty) and
`DEFAULT_SCENE_COUNT=0`. -/
def envSceneZero : String → Option String := fun k =>
  if k ∈ requiredKeys then some "x"
  else if k = "DEFAULT_SCENE_COUNT" then some "0"
  else none

/-- Counterexample to C9: with every required key present and
`DEFAULT_SCENE_COUNT=0` — a non-positive numeric setting — the
loader does not raise: it returns a `Config` whose
`default_scene_count` is `0`.  `_validate_config` never checks
`default_scene_count`. -/
theorem get_config_accepts_zero_scene_count :
    (get_config envSceneZero).toOption.map Config.default_scene_count = some 0 := by
  rfl

/-- An environment with exactly the required keys set (non-empty). -/
def envDefaults : String → Option String := fun k =>
  if k ∈ requiredKeys then some "x" else none

/-- The `Config` that `get_config` returns under `envDefaults`. -/
def cfgDefaults : Config :=
  { xhs_cookie := "x"
    llm_api_key := "x"
    llm_base_url := "https://api.deepseek.com"
    notion_token := "x"
    original_database_id := "x"
    processed_database_id := "x"
    doubao_api_key := "x"
    doubao_base_url := "https://ark.cn-beijing.volces.com/api/v3"
    video_output_dir := "videos"
    default_scene_count := 3
    video_resolution := "720p"
    video_style := "realistic"
    note_type := 2
    sort := 2
    total_number := 2
    log_level := "INFO"
    request_timeout := 30
    max_retries := 3 }

/-- Witness for the amended C9 at a concrete environment: a loaded
config satisfies every validated constraint, and `envDefaults` yields
the documented defaults. -/
theorem get_config_spec_witness :
    ((∀ k ∈ requiredKeys, (envDefaults k).getD "" ≠ "") ∧
      (cfgDefaults.note_type = 0 ∨ cfgDefaults.note_type = 1 ∨ cfgDefaults.note_type = 2) ∧
      (cfgDefaults.sort = 0 ∨ cfgDefaults.sort = 1 ∨ cfgDefaults.sort = 2) ∧
      0 < cfgDefaults.total_number ∧
      pyUpper cfgDefaults.log_level ∈ ["DEBUG", "INFO", "WARNING", "ERROR"] ∧
      0 < cfgDefaults.request_timeout ∧
      0 ≤ cfgDefaults.max_retries) ∧
    (∃ c, get_config envDefaults = .ok c ∧
      c.default_scene_count = 3 ∧ c.note_type = 2 ∧ c.sort = 2 ∧
      c.total_number = 2 ∧ c.log_level = "INFO" ∧ c.request_timeout = 30 ∧
      c.max_retries = 3 ∧ c.llm_base_url = "https://api.deepseek.com" ∧
      c.video_output_dir = "videos" ∧ c.video_resolution = "720p" ∧
      c.video_style = "realistic") :=
  ⟨get_config_spec.1 envDefaults cfgDefaults rfl,
    get_config_spec.2 envDefaults
      (by
        intro k hk
        refine ⟨"x", ?_, by decide⟩
        simp [envDefaults, hk])
      (by
        intro k hk
        simp [envDefaults, hk])⟩

/-! ### WorkflowProcessor (`main.py`, lines 328-484)

`process_workflow` takes the discovery result (the searched notes) and
loops over them.  Per note: `read_note_content` (falsy result →
`continue`, with only a log — no record of the note enters the
report), `process_content` (falsy result → `continue`), the video
sub-workflow (its own try/except converts an exception into a
`{"success": False, "message": str(e)}` value), the two Notion
persistence calls (each returns a boolean, never raises), then the
result dict is appended.  After the loop the report is
`{"success": True, "message": f"成功处理 {len(results)} 条笔记",
"results": results}`; an empty discovery yields
`{"success": False, "message": "未找到任何笔记"}` with no results key.

Collaborators are parameters (all already exception-free in the
source: `read_note_content`, `process_content` and
`add_database_item` catch internally and return `None`/`False`). -/

structure XHSNote where
  note_id : String
  note_display_title : String
  note_url : String
  auther_nick_name : String
  auther_user_id : String
  auther_avatar : String
  auther_home_page_url : String
  note_liked_count : String
  note_cover_url_pre : String
  note_cover_url_default : String
  note_cover_width : String
  note_cover_height : String
  note_model_type : String
  note_card_type : String
  note_xsec_token : String
  note_liked : Bool

structure NoteContent where
  title : String
  desc : String
  video_url : Option String

/-- The video sub-workflow's result dict, reduced to the fields the
orchestrator reads. -/
structure VideoWfReport where
  success : Bool
  message : String

/-- One entry of a Notion `properties` list. -/
structure NotionProp where
  name : String
  type : String
  value : String

/-- One entry of the run report's `results` list. -/
structure ItemRecord where
  note_id : String
  note_title : String
  note_url : String
  author : String
  likes : String
  original_content : String
  processed_content : String
  original_saved : Bool
  processed_saved : Bool
  video_generation : VideoWfReport

/-- The stage collaborators called per note. -/
structure Collaborators where
  read_note_content : String → Option NoteContent
  process_content : String → Option String
  process_video_workflow : String → Int → Except String VideoWfReport
  add_database_item : String → List NotionProp → Bool

/-- The configuration entries `process_workflow` reads. -/
structure WorkflowConfig where
  original_database_id : String
  processed_database_id : String
  default_scene_count : Int

/-- Python `s or default` on strings: empty is falsy. -/
def pyOrStr (s default : String) : String :=
  if s = "" then default else s

/-- The body of the per-note loop: `some record` when the note is
fully processed and appended, `none` when a stage failure makes the
loop `continue` — leaving no trace of the note in the report. -/
def processNote (co : Collaborators) (cfg : WorkflowConfig) (current_date : String)
    (note : XHSNote) : Option ItemRecord :=
  match co.read_note_content note.note_url with
  | none => none              -- 2.1 无法读取笔记内容: continue
  | some note_content =>
    match co.process_content note_content.desc with
    | none => none            -- 2.2 LLM处理内容失败: continue
    | some processed_content =>
      if processed_content = "" then none   -- `if not processed_content`
      else
        let video_result :=
          match co.process_video_workflow processed_content cfg.default_scene_count with
          | .ok vr => vr
          | .error e => ⟨false, e⟩   -- except: video_result = failed dict
        let original_properties : List NotionProp :=
          [⟨"note_display_title", "title", pyOrStr note.note_display_title "无标题"⟩,
            ⟨"auther_nick_name", "rich_text", pyOrStr note.auther_nick_name "未知作者"⟩,
            ⟨"note_liked_count", "rich_text", pyOrStr note.note_liked_count "0"⟩,
            ⟨"note_url", "url", pyOrStr note.note_url "无链接"⟩,
            ⟨"created_date", "date", current_date⟩]
        let processed_properties : List NotionProp :=
          [⟨"Content", "title",
            if 2000 < processed_content.length
            then String.mk (processed_content.data.take 1997) ++ "..."
            else processed_content⟩,
            ⟨"Date", "date", current_date⟩]
        let original_success :=
          co.add_database_item cfg.original_database_id original_properties
        let processed_success :=
          co.add_database_item cfg.processed_database_id processed_properties
        some
          { note_id := note.note_id
            note_title := note.note_display_title
            note_url := note.note_url
            author := note.auther_nick_name
            likes := note.note_liked_count
            original_content := note_content.desc
            processed_content := processed_content
            original_saved := original_success
            processed_saved := processed_success
            video_generation := video_result }

/-- The `for note in notes` loop accumulating `results`. -/
def workflowLoop (co : Collaborators) (cfg : WorkflowConfig) (current_date : String) :
    List XHSNote → List ItemRecord
  | [] => []
  | note :: rest =>
    match processNote co cfg current_date note with
    | none => workflowLoop co cfg current_date rest
    | some r => r :: workflowLoop co cfg current_date rest

/-- The two shapes of dict `process_workflow` returns. -/
inductive WorkflowReport where
  | failure (message : String) : WorkflowReport
  | success (message : String) (results : List ItemRecord) : WorkflowReport

/-- The report's `success` flag. -/
def WorkflowReport.successFlag : WorkflowReport → Bool
  | .failure _ => false
  | .success _ _ => true

/-- The report's `results` list (absent — empty — on the failure
shape). -/
def WorkflowReport.resultsList : WorkflowReport → List ItemRecord
  | .failure _ => []
  | .success _ rs => rs

/-- `WorkflowProcessor.process_workflow`, as a function of the
discovery result `notes`. -/
def process_workflow (co : Collaborators) (cfg : WorkflowConfig) (current_date : String)
    (notes : List XHSNote) : WorkflowReport :=
  if notes.isEmpty then .failure "未找到任何笔记"
  else
    let results := workflowLoop co cfg current_date notes
    .success ("成功处理 " ++ toString results.length ++ " 条笔记") results

/-- The loop is the `filterMap` of the per-note body: each note's
contribution to the report depends only on that note. -/
theorem workflowLoop_eq_filterMap (co : Collaborators) (cfg : WorkflowConfig)
    (date : String) (notes : List XHSNote) :
    workflowLoop co cfg date notes = notes.filterMap (processNote co cfg date) := by
  induction notes with
  | nil => rfl
  | cons n rest ih =>
    cases h : processNote co cfg date n with
    | none => simp only [workflowLoop, h, List.filterMap_cons, ih]
    | some r => simp only [workflowLoop, h, List.filterMap_cons, ih]

/-- `filterMap` keeps exactly the entries on which `f` succeeds. -/
theorem length_filterMap_eq_countP {α β : Type} (f : α → Option β) (l : List α) :
    (l.filterMap f).length = l.countP (fun a => (f a).isSome) := by
  induction l with
  | nil => rfl
  | cons a l ih =>
    cases h : f a <;> simp [List.filterMap_cons, h, List.countP_cons, ih]

/-- C1 (amended).  Once discovery returns at least one item the
run-level `success` flag is `True` unconditionally — it does not
depend on how many items completed any stage (the count of items
reaching `Persisted` or completing `Synthesized` may be zero); the
message reports the number of items that passed fetch and rewrite and
were appended to `results`, and the report lists exactly those items.
With an empty discovery the flag is `False`. -/
theorem process_workflow_success_spec (co : Collaborators) (cfg : WorkflowConfig)
    (date : String) (notes : List XHSNote) :
    (process_workflow co cfg date notes).successFlag = !notes.isEmpty ∧
    (notes ≠ [] →
      process_workflow co cfg date notes
        = WorkflowReport.success
            ("成功处理 "
              ++ toString (notes.countP (fun n => (processNote co cfg date n).isSome))
              ++ " 条笔记")
            (notes.filterMap (processNote co cfg date))) ∧
    (notes = [] → process_workflow co cfg date notes = .failure "未找到任何笔记") := by
  refine ⟨?_, ?_, ?_⟩
  · cases hne : notes.isEmpty with
    | false => simp [process_workflow, hne, WorkflowReport.successFlag]
    | true => simp [process_workflow, hne, WorkflowReport.successFlag]
  · intro h
    have hne : notes.isEmpty = false := by simpa using h
    simp only [process_workflow, hne, Bool.false_eq_true, if_false,
      workflowLoop_eq_filterMap, length_filterMap_eq_countP]
  · intro h
    subst h
    rfl

def cfgStub : WorkflowConfig := ⟨"db_orig", "db_proc", 3⟩

def noteStub (id title url : String) : XHSNote :=
  ⟨id, title, url, "作者", "uid", "", "", "100", "", "", "400", "300",
    "normal", "normal", "tok", false⟩

/-- Collaborators whose `FetchContent` stage always fails (returns
`None`); rewrite, video and persistence would succeed. -/
def collabFetchAlwaysFails : Collaborators :=
  { read_note_content := fun _ => none
    process_content := fun _ => some "processed"
    process_video_workflow := fun _ _ => .ok ⟨true, "ok"⟩
    add_database_item := fun _ _ => true }

/-- Counterexample to C1: discovery returns one item, its fetch stage
fails, so no item reaches `Persisted` or completes `Synthesized` (the
results list is empty) — yet the run-level `success` flag is `True`,
refuting `success = (count > 0)`. -/
theorem process_workflow_success_despite_zero_items :
    (process_workflow collabFetchAlwaysFails cfgStub "2026-01-01"
      [noteStub "n1" "t1" "u1"]).successFlag = true ∧
    (process_workflow collabFetchAlwaysFails cfgStub "2026-01-01"
      [noteStub "n1" "t1" "u1"]).resultsList = [] :=
  ⟨rfl, rfl⟩

/-- Witness for the amended C1 at a concrete input: one discovered
item whose fetch fails — the flag is `!isEmpty = true` and the report
message counts 0 processed items. -/
theorem process_workflow_success_spec_witness :
    (process_workflow collabFetchAlwaysFails cfgStub "2026-01-01"
        [noteStub "n1" "t1" "u1"]).successFlag
      = !([noteStub "n1" "t1" "u1"] : List XHSNote).isEmpty ∧
    process_workflow collabFetchAlwaysFails cfgStub "2026-01-01" [noteStub "n1" "t1" "u1"]
      = WorkflowReport.success
          ("成功处理 "
            ++ toString (([noteStub "n1" "t1" "u1"] : List XHSNote).countP
              (fun n => (processNote collabFetchAlwaysFails cfgStub "2026-01-01" n).isSome))
            ++ " 条笔记")
          (([noteStub "n1" "t1" "u1"] : List XHSNote).filterMap
            (processNote collabFetchAlwaysFails cfgStub "2026-01-01")) :=
  ⟨(process_workflow_success_spec collabFetchAlwaysFails cfgStub "2026-01-01"
      [noteStub "n1" "t1" "u1"]).1,
    (process_workflow_success_spec collabFetchAlwaysFails cfgStub "2026-01-01"
      [noteStub "n1" "t1" "u1"]).2.1 (by simp)⟩

/-- Collaborators whose `FetchContent` stage fails exactly for the URL
`"u2"`; every other stage succeeds. -/
def collabFetchFailsOnU2 : Collaborators :=
  { read_note_content := fun url =>
      if url = "u2" then none else some ⟨"标题", "正文内容", none⟩
    process_content := fun _ => some "processed"
    process_video_workflow := fun _ _ => .ok ⟨true, "ok"⟩
    add_database_item := fun _ _ => true }

/-- The run report for 3 discovered items where item 2's fetch
fails. -/
def reportItem2Fails : WorkflowReport :=
  process_workflow collabFetchFailsOnU2 cfgStub "2026-01-01"
    [noteStub "n1" "t1" "u1", noteStub "n2" "t2" "u2", noteStub "n3" "t3" "u3"]

/-- Counterexample to C2: with 3 items where item 2's FetchContent
fails, the run does complete with `success = True` and results for
items 1 and 3 — but the report contains NO record of item 2 at all
(a report is only `success`, `message`, `results`, and no entry of
`results` refers to `n2`): there is no skip-record stating which
stage the item stopped at or why; the item is only logged and
dropped. -/
theorem run_report_has_no_skip_record :
    reportItem2Fails.successFlag = true ∧
    reportItem2Fails.resultsList.map ItemRecord.note_id = ["n1", "n3"] ∧
    reportItem2Fails.resultsList.filter (fun r => r.note_id = "n2") = [] ∧
    reportItem2Fails.resultsList.length = 2 :=
  ⟨rfl, rfl, rfl, rfl⟩

/-- C2 (amended).  Item isolation holds, but without skip-records:
(i) the report's results are the `filterMap` of the per-note body, so
one item's outcome never influences another's processing; (ii) a
fetch failure makes that item contribute nothing; (iii) dropping a
failed item leaves the other items' processing unchanged — a failure
never aborts the run; (iv) the run still reports `success = True` for
any nonempty discovery.  The failed item leaves no record of any kind
in the report. -/
theorem process_workflow_isolation_spec (co : Collaborators) (cfg : WorkflowConfig)
    (date : String) :
    (∀ notes, workflowLoop co cfg date notes
      = notes.filterMap (processNote co cfg date)) ∧
    (∀ note, co.read_note_content note.note_url = none →
      processNote co cfg date note = none) ∧
    (∀ pre post note, processNote co cfg date note = none →
      workflowLoop co cfg date (pre ++ note :: post)
        = workflowLoop co cfg date (pre ++ post)) ∧
    (∀ notes, notes ≠ [] →
      (process_workflow co cfg date notes).successFlag = true) := by
  refine ⟨workflowLoop_eq_filterMap co cfg date, ?_, ?_, ?_⟩
  · intro note h
    unfold processNote
    rw [h]
  · intro pre post note h
    rw [workflowLoop_eq_filterMap, workflowLoop_eq_filterMap]
    simp [List.filterMap_append, List.filterMap_cons, h]
  · intro notes h
    have hne : notes.isEmpty = false := by simpa using h
    simp [process_workflow, hne, WorkflowReport.successFlag]

/-- Witness for the amended C2 at concrete inputs: the `"u2"` note's
fetch failure skips it, removing it from a batch leaves the others'
results unchanged, and a 1-item run reports success. -/
theorem process_workflow_isolation_spec_witness :
    processNote collabFetchFailsOnU2 cfgStub "2026-01-01" (noteStub "n2" "t2" "u2")
        = none ∧
    workflowLoop collabFetchFailsOnU2 cfgStub "2026-01-01"
        ([noteStub "n1" "t1" "u1"] ++ noteStub "n2" "t2" "u2" :: [noteStub "n3" "t3" "u3"])
      = workflowLoop collabFetchFailsOnU2 cfgStub "2026-01-01"
        ([noteStub "n1" "t1" "u1"] ++ [noteStub "n3" "t3" "u3"]) ∧
    (process_workflow collabFetchFailsOnU2 cfgStub "2026-01-01"
      [noteStub "n1" "t1" "u1"]).successFlag = true :=
  ⟨(process_workflow_isolation_spec collabFetchFailsOnU2 cfgStub "2026-01-01").2.1
      (noteStub "n2" "t2" "u2") rfl,
    (process_workflow_isolation_spec collabFetchFailsOnU2 cfgStub "2026-01-01").2.2.1
      [noteStub "n1" "t1" "u1"] [noteStub "n3" "t3" "u3"] (noteStub "n2" "t2" "u2") rfl,
    (process_workflow_isolation_spec collabFetchFailsOnU2 cfgStub "2026-01-01").2.2.2
      [noteStub "n1" "t1" "u1"] (by simp)⟩
